import Mathlib

/-!
Shallow embedding of `src/runtime_src/xrt/device/hal.cpp` (XRT HAL driver
loader).  The filesystem, the dynamic linker and the external collaborators
(`xrt::config::get_hw_em_driver`, `xrt::config::get_sw_em_driver`,
`hal2::createDevices`) are modelled as fields of an environment record `Env`;
the functions of the translation unit (`emptyOrValue`, `directoryOrError`,
`isDLL`, `createHalDevices`, `loadDevices`, `load_xdp`) are translated
one-to-one as Lean functions over that environment.  Errors thrown with
`std::runtime_error` become the `HalError` inductive, whose `message`
function reproduces the exact message strings built in the source.
-/

/-- Devices are opaque in the source (constructed by the external
`hal2::createDevices` adapter); we model one by the dll it came from and an
index. -/
structure Device where
  dll : String
  idx : Nat
deriving DecidableEq, Repr

/-- Every `std::runtime_error` thrown in hal.cpp, as a structured value.
`message` below rebuilds the exact string the source builds. -/
inductive HalError where
  | openFailed (dll : String) (dlerr : String)
  | legacyVersion (v : Int)
  | unsupportedVersion (v : Int)
  | noSuchDirectory (path : String)
  | xrtNotSet
  | xdpNotFoundUnset (libname : String)
  | xdpLibNotFound (path : String)
  | xdpOpenFailed (path : String) (dlerr : String)
  | xdpSymbolMissing (sym : String) (dlerr : String)
deriving DecidableEq, Repr

/-- The message string each error carries, exactly as concatenated in the
source (hal.cpp lines 40, 107, 127, 131-132, 199-200, 221, 228-229, 232-234,
240-241). -/
def HalError.message : HalError → String
  | .openFailed dll dlerr => "Failed to open HAL driver \x27" ++ dll ++ "\x27\n" ++ dlerr
  | .legacyVersion v => "Legacy HAL version " ++ toString v ++ " not supported"
  | .unsupportedVersion v => "HAL version " ++ toString v ++ " not supported"
  | .noSuchDirectory p => "No such directory \x27" ++ p ++ "\x27"
  | .xrtNotSet => "XILINX_XRT must be set"
  | .xdpNotFoundUnset libname => "Library " ++ libname ++ " not found! XILINX_XRT not set"
  | .xdpLibNotFound p => "Library " ++ p ++ " not found!"
  | .xdpOpenFailed p dlerr => "Failed to open XDP library \x27" ++ p ++ "\x27\n" ++ dlerr
  | .xdpSymbolMissing s dlerr =>
      "Failed to initialize XDP library, \x27" ++ s ++ "\x27 symbol not found.\n" ++ dlerr

/-- An error is an unsupported-version negotiation failure (hal.cpp lines
126-127 and 131-132). -/
def HalError.isVersionError : HalError → Bool
  | .legacyVersion _ => true
  | .unsupportedVersion _ => true
  | _ => false

/-- Snapshot of everything hal.cpp observes from the outside world:
environment variables, the filesystem predicates used by
`boost::filesystem`, the dynamic linker's behaviour on each dll path
(whether `dlopen` succeeds, which of the two contract symbols `xclProbe` /
`xclVersion` resolve, and what the resolved functions return), the external
configuration collaborator, and the external `hal2::createDevices` adapter
(as the list of devices it appends for a given dll and count). -/
structure Env where
  /-- `getenv("XILINX_XRT")`: `none` models a null pointer. -/
  xilinx_xrt : Option String
  /-- `getenv("XCL_EMULATION_MODE") != nullptr` (hal.cpp lines 89-94). -/
  emulationMode : Bool
  /-- result of `xrt::config::get_hw_em_driver()`. -/
  hw_em_driver : String
  /-- result of `xrt::config::get_sw_em_driver()`. -/
  sw_em_driver : String
  /-- `boost::filesystem::is_directory`. -/
  is_directory : String → Bool
  /-- `boost::filesystem::exists`. -/
  pathExists : String → Bool
  /-- `boost::filesystem::is_regular_file`. -/
  isRegularFile : String → Bool
  /-- whether `dlopen(dll, RTLD_LAZY | RTLD_GLOBAL)` returns non-null. -/
  openOk : String → Bool
  /-- the `dlerror()` diagnostic string. -/
  dlerrorMsg : String
  /-- whether `dlsym(handle, "xclProbe")` resolves for the dll. -/
  hasProbe : String → Bool
  /-- value returned by the dll's `xclProbe()`. -/
  probe : String → Nat
  /-- whether `dlsym(handle, "xclVersion")` resolves for the dll. -/
  hasVersion : String → Bool
  /-- value returned by the dll's `xclVersion()`, an `unsigned int` (a
  value in `[0, 2^32)`; the model truncates larger values mod `2^32` at
  the call site). -/
  version : String → Nat
  /-- devices `hal2::createDevices(devices, dll, handle, count)` appends. -/
  hal2Devices : String → Nat → List Device
  /-- whether `dlopen(path, RTLD_NOW | RTLD_GLOBAL)` of the XDP library
  returns non-null. -/
  xdpOpenOk : String → Bool
  /-- whether `dlsym(handle, "initXDPLib")` resolves in the XDP library. -/
  xdpHasInit : Bool

/-- hal.cpp lines 30-34: `cstr ? cstr : ""`. -/
def emptyOrValue (cstr : Option String) : String :=
  cstr.getD ""

/-- Characters of the last path component: everything after the last
slash (the `boost::filesystem::path::filename()` of our string paths). -/
def lastComponent (l : List Char) : List Char :=
  l.foldl (fun acc c => if c = '/' then [] else acc ++ [c]) []

/-- Characters from the last dot (inclusive) of a filename, or `[]` when
the filename has no dot. -/
def extAfterLastDot (l : List Char) : Option (List Char) :=
  l.foldl (fun acc c => if c = '.' then some [c] else acc.map (fun a => a ++ [c])) none

/-- `boost::filesystem::path::extension()` for our string paths: the part
of the filename from its last dot on, empty for dot and dot-dot and for
filenames without a dot. -/
def extensionOf (p : String) : String :=
  let f := lastComponent p.toList
  if f = ['.'] ∨ f = ['.', '.'] then ""
  else String.mk ((extAfterLastDot f).getD [])

/-- hal.cpp lines 72-77: the shared-library extension. -/
def dllExt : String := ".so"

/-- `boost::filesystem::path::operator/`: append with a separator unless
the left side is empty or already ends in one. -/
def pathJoin (a b : String) : String :=
  if a = "" then b
  else if a.toList.getLast? = some '/' then a ++ b
  else a ++ "/" ++ b

/-- hal.cpp lines 79-85: a path is a DLL when it exists, is a regular file
and has the `.so` extension. -/
def isDLL (env : Env) (path : String) : Bool :=
  env.pathExists path && env.isRegularFile path && (extensionOf path == dllExt)

/-- hal.cpp lines 36-41: throw "No such directory" unless the path is a
directory. -/
def directoryOrError (env : Env) (path : String) : Except HalError Unit :=
  if env.is_directory path then .ok () else .error (.noSuchDirectory path)

instance {ε α : Type} [DecidableEq ε] [DecidableEq α] : DecidableEq (Except ε α) := fun a b =>
  match a, b with
  | .error e, .error f =>
    if h : e = f then .isTrue (by rw [h]) else .isFalse (fun he => by cases he; exact h rfl)
  | .error _, .ok _ => .isFalse (fun h => by cases h)
  | .ok _, .error _ => .isFalse (fun h => by cases h)
  | .ok x, .ok y =>
    if h : x = y then .isTrue (by rw [h]) else .isFalse (fun he => by cases he; exact h rfl)

/-- Outcome of `createHalDevices` (hal.cpp lines 96-134): the returned or
thrown value, plus whether the dll handle was released (`handle.release()`
on the version-2 path, line 130) rather than closed by the scoped
`unique_ptr` deleter. -/
structure NegotiationOutcome where
  result : Except HalError (List Device)
  released : Bool
deriving DecidableEq, Repr

/-- The conversion performed by the assignment `version = vFunc()` at
hal.cpp lines 122-124: `auto version = 1` makes `version` an `int`, and the
`unsigned int` returned by `vFunc()` is converted to `int` by
two's-complement wrap (the behaviour of every toolchain this code
targets): values below `2^31` are kept, values in `[2^31, 2^32)` become
negative. -/
def toInt32 (u : Nat) : Int :=
  if u % 4294967296 < 2147483648 then ((u % 4294967296 : Nat) : Int)
  else ((u % 4294967296 : Nat) : Int) - 4294967296

/-- hal.cpp lines 96-134: open the dll, resolve `xclProbe` (absent: plain
return), take the count from the caller hint or else from `xclProbe()`
(`pmdCount` is the constant 0 of line 116), and when the count is nonzero
dispatch on the version from `xclVersion()`, narrowed to `int` by the
assignment of lines 122-124 (defaulting to 1 when the symbol is absent):
version 1 and versions other than 2 throw, version 2 releases the handle
to `hal2::createDevices`, which appends its devices. -/
def createHalDevices (env : Env) (devices : List Device) (dll : String)
    (count : Nat := 0) : NegotiationOutcome :=
  if env.openOk dll = false then
    { result := .error (.openFailed dll env.dlerrorMsg), released := false }
  else if env.hasProbe dll = false then
    { result := .ok devices, released := false }
  else
    let count := if count ≠ 0 then count else env.probe dll
    let pmdCount : Nat := 0
    if count ≠ 0 ∨ pmdCount ≠ 0 then
      let version : Int := if env.hasVersion dll then toInt32 (env.version dll) else 1
      if version = 1 then
        { result := .error (.legacyVersion version), released := false }
      else if version = 2 then
        { result := .ok (devices ++ env.hal2Devices dll count), released := true }
      else
        { result := .error (.unsupportedVersion version), released := false }
    else
      { result := .ok devices, released := false }

/-- The root path `bfs::path xrt(emptyOrValue(getenv("XILINX_XRT")))` of
hal.cpp line 155. -/
def xrtRoot (env : Env) : String :=
  emptyOrValue env.xilinx_xrt

/-- The pattern `if (isDLL(p)) createHalDevices(devices, p)` shared by all
four candidate blocks of `loadDevices` (hal.cpp lines 160-162, 166-168,
180-188, 193-196): a path failing the DLL predicate is skipped without
error. -/
def tryCandidate (env : Env) (devices : List Device) (p : String) :
    Except HalError (List Device) :=
  if isDLL env p = true then (createHalDevices env devices p).result
  else .ok devices

/-- hal.cpp lines 156-163: the primary candidate block. Only entered when
the root is nonempty and emulation mode is off; validates the root
directory, then tries `{root}/lib/libxrt_core.so`. -/
def primaryStep (env : Env) : Except HalError (List Device) :=
  let xrt := xrtRoot env
  if xrt ≠ "" ∧ env.emulationMode = false then
    match directoryOrError env xrt with
    | .error e => .error e
    | .ok _ => tryCandidate env [] (pathJoin xrt "lib/libxrt_core.so")
  else .ok []

/-- hal.cpp lines 165-169: the secondary candidate block, entered exactly
when the accumulated device list is still empty; tries
`{root}/lib/libxrt_aws.so`. -/
def secondaryStep (env : Env) (devices : List Device) :
    Except HalError (List Device) :=
  if devices.isEmpty then
    tryCandidate env devices (pathJoin (xrtRoot env) "lib/libxrt_aws.so")
  else .ok devices

/-- hal.cpp lines 171-184: the hardware-emulation candidate block. Only
entered when the root is nonempty and emulation mode is on; validates the
root directory, asks the configuration collaborator for an override, and
when the override is the sentinel "null" substitutes the default
`{root}/lib/libxrt_hwemu.so` provided that default is a DLL. -/
def hwEmStep (env : Env) (devices : List Device) :
    Except HalError (List Device) :=
  let xrt := xrtRoot env
  if xrt ≠ "" ∧ env.emulationMode = true then
    match directoryOrError env xrt with
    | .error e => .error e
    | .ok _ =>
      let hw0 := env.hw_em_driver
      let hw := if hw0 = "null" then
          (let p := pathJoin xrt "lib/libxrt_hwemu.so"
           if isDLL env p = true then p else hw0)
        else hw0
      tryCandidate env devices hw
  else .ok devices

/-- hal.cpp lines 186-197: the software-emulation candidate block, the same
shape as the hardware-emulation block with `get_sw_em_driver` and default
`{root}/lib/libxrt_swemu.so`. -/
def swEmStep (env : Env) (devices : List Device) :
    Except HalError (List Device) :=
  let xrt := xrtRoot env
  if xrt ≠ "" ∧ env.emulationMode = true then
    match directoryOrError env xrt with
    | .error e => .error e
    | .ok _ =>
      let sw0 := env.sw_em_driver
      let sw := if sw0 = "null" then
          (let p := pathJoin xrt "lib/libxrt_swemu.so"
           if isDLL env p = true then p else sw0)
        else sw0
      tryCandidate env devices sw
  else .ok devices

/-- hal.cpp lines 151-203, `xrt::hal::loadDevices`: run the four candidate
blocks in order, propagating any thrown error, and only then (lines
199-200) throw "XILINX_XRT must be set" when the root is empty; otherwise
return the accumulated device list. -/
def loadDevices (env : Env) : Except HalError (List Device) :=
  match primaryStep env with
  | .error e => .error e
  | .ok d1 =>
    match secondaryStep env d1 with
    | .error e => .error e
    | .ok d2 =>
      match hwEmStep env d2 with
      | .error e => .error e
      | .ok d3 =>
        match swEmStep env d3 with
        | .error e => .error e
        | .ok d4 =>
          if xrtRoot env = "" then .error .xrtNotSet else .ok d4

/-- hal.cpp lines 213-242, the constructor body of `xdp_once_loader`: the
one-shot initialization attempt of the XDP auxiliary library. Throws when
the root is unset, `{root}/lib` is not a directory, the library file is
not a DLL, `dlopen` fails, or `initXDPLib` does not resolve; otherwise
invokes `initXDPLib` and succeeds. -/
def load_xdp_attempt (env : Env) : Except HalError Unit :=
  let xrt := xrtRoot env
  let libname := "liboclxdp.so"
  if xrt = "" then .error (.xdpNotFoundUnset libname)
  else
    let p := pathJoin xrt "lib"
    match directoryOrError env p with
    | .error e => .error e
    | .ok _ =>
      let p2 := pathJoin p libname
      if isDLL env p2 = false then .error (.xdpLibNotFound p2)
      else if env.xdpOpenOk p2 = false then
        .error (.xdpOpenFailed p2 env.dlerrorMsg)
      else if env.xdpHasInit = false then
        .error (.xdpSymbolMissing "initXDPLib" env.dlerrorMsg)
      else .ok ()

/-- Observable outcome of one `load_xdp()` call: the value returned or
thrown, the state of the function-local static afterwards (whether
`xdp_loaded` counts as initialized), and whether the constructor body ran
during this call. -/
structure XdpCallResult where
  result : Except HalError Unit
  initializedAfter : Bool
  attempted : Bool
deriving DecidableEq, Repr

/-- hal.cpp lines 209-248, `xrt::hal::load_xdp`: a function-local static
(`static xdp_once_loader xdp_loaded`). Per C++11 dynamic initialization of
block-scope statics, when the variable is already initialized the
constructor is skipped; when initialization exits via an exception the
variable does not become initialized and initialization is re-attempted
the next time control passes through the declaration. -/
def load_xdp (initialized : Bool) (env : Env) : XdpCallResult :=
  if initialized then
    { result := .ok (), initializedAfter := true, attempted := false }
  else
    match load_xdp_attempt env with
    | .ok _ => { result := .ok (), initializedAfter := true, attempted := true }
    | .error e => { result := .error e, initializedAfter := false, attempted := true }

/-! Concrete environments used to instantiate the theorems below. -/

/-- The empty world: no environment variables, an empty filesystem, a
dynamic linker that loads nothing. -/
def env0 : Env where
  xilinx_xrt := none
  emulationMode := false
  hw_em_driver := "null"
  sw_em_driver := "null"
  is_directory := fun _ => false
  pathExists := fun _ => false
  isRegularFile := fun _ => false
  openOk := fun _ => false
  dlerrorMsg := ""
  hasProbe := fun _ => false
  probe := fun _ => 0
  hasVersion := fun _ => false
  version := fun _ => 0
  hal2Devices := fun _ _ => []
  xdpOpenOk := fun _ => false
  xdpHasInit := false

/-- Root unset, but the relative path `lib/libxrt_aws.so` (resolved against
the current working directory) names an existing regular file that fails to
open. -/
def cEnvC1 : Env :=
  { env0 with
    pathExists := fun p => p == "lib/libxrt_aws.so"
    isRegularFile := fun p => p == "lib/libxrt_aws.so" }

/-- Emulation off, valid root `/x`, primary driver present and opening,
probing one device, reporting ABI version 1. -/
def wEnvC2 : Env :=
  { env0 with
    xilinx_xrt := some "/x"
    is_directory := fun p => p == "/x"
    pathExists := fun p => p == "/x/lib/libxrt_core.so"
    isRegularFile := fun p => p == "/x/lib/libxrt_core.so"
    openOk := fun _ => true
    hasProbe := fun _ => true
    probe := fun _ => 1
    hasVersion := fun _ => true
    version := fun _ => 1 }

/-- Emulation on, valid root `/x`, secondary driver contributing one
device at version 2, hardware-emulation override naming a driver that
reports version 1. -/
def wEnvC2b : Env :=
  { env0 with
    xilinx_xrt := some "/x"
    emulationMode := true
    hw_em_driver := "/ovr/hw.so"
    is_directory := fun p => p == "/x"
    pathExists := fun p => p == "/x/lib/libxrt_aws.so" || p == "/ovr/hw.so"
    isRegularFile := fun p => p == "/x/lib/libxrt_aws.so" || p == "/ovr/hw.so"
    openOk := fun _ => true
    hasProbe := fun _ => true
    probe := fun _ => 1
    hasVersion := fun _ => true
    version := fun p => if p == "/x/lib/libxrt_aws.so" then 2 else 1
    hal2Devices := fun dll _ => [⟨dll, 0⟩] }

/-- A dll that opens and probes one device but exports no version symbol. -/
def abiEnv : Env :=
  { env0 with
    openOk := fun _ => true
    hasProbe := fun _ => true
    probe := fun _ => 1 }

/-- A dll that opens, probes two devices, reports version 2, and whose
`hal2::createDevices` contributes one device tagged with the count. -/
def abiEnv2 : Env :=
  { env0 with
    openOk := fun _ => true
    hasProbe := fun _ => true
    probe := fun _ => 2
    hasVersion := fun _ => true
    version := fun _ => 2
    hal2Devices := fun dll c => [⟨dll, c⟩] }

/-- A dll that opens but exports no `xclProbe` symbol. -/
def abiEnvNoProbe : Env :=
  { env0 with openOk := fun _ => true }

/-- A dll that opens, probes one device, and reports version `2^31`: the
smallest unsigned version value that wraps negative in the `int`
narrowing. -/
def cEnvC3 : Env :=
  { env0 with
    openOk := fun _ => true
    hasProbe := fun _ => true
    probe := fun _ => 1
    hasVersion := fun _ => true
    version := fun _ => 2147483648 }

/-- A dll that opens, probes one device, and reports the unsupported (but
small) version 3. -/
def wEnvC3 : Env :=
  { env0 with
    openOk := fun _ => true
    hasProbe := fun _ => true
    probe := fun _ => 1
    hasVersion := fun _ => true
    version := fun _ => 3 }

/-- Emulation on, valid root `/x`, both emulation overrides "null", no
default emulation file present, but a secondary `libxrt_aws.so` whose
driver reports the retired ABI version 1. -/
def cEnvC8 : Env :=
  { env0 with
    xilinx_xrt := some "/x"
    emulationMode := true
    is_directory := fun p => p == "/x"
    pathExists := fun p => p == "/x/lib/libxrt_aws.so"
    isRegularFile := fun p => p == "/x/lib/libxrt_aws.so"
    openOk := fun _ => true
    hasProbe := fun _ => true
    probe := fun _ => 1
    hasVersion := fun _ => true
    version := fun _ => 1 }

/-- Emulation on, valid root `/x`, both overrides "null", an empty
`{root}/lib`. -/
def aEnvC8 : Env :=
  { env0 with
    xilinx_xrt := some "/x"
    emulationMode := true
    is_directory := fun p => p == "/x" }

/-- A world in which the XDP auxiliary library is present at
`/x/lib/liboclxdp.so`, opens, and exports `initXDPLib`. -/
def xdpGoodEnv : Env :=
  { env0 with
    xilinx_xrt := some "/x"
    is_directory := fun p => p == "/x/lib"
    pathExists := fun p => p == "/x/lib/liboclxdp.so"
    isRegularFile := fun p => p == "/x/lib/liboclxdp.so"
    xdpOpenOk := fun _ => true
    xdpHasInit := true }

/-- Emulation off, root `/x` set but not a directory. -/
def wEnvC10 : Env :=
  { env0 with xilinx_xrt := some "/x" }

/-! Theorems settling the claims. -/

/-- Claim C10: with emulation off and the install root set to a non-empty
path that is not a directory, loadDevices throws the "No such directory"
configuration error, whatever the filesystem and drivers look like
elsewhere (so before the primary candidate file is examined). -/
theorem spec_c10 (env : Env) (hemu : env.emulationMode = false)
    (hne : xrtRoot env ≠ "") (hdir : env.is_directory (xrtRoot env) = false) :
    loadDevices env = .error (.noSuchDirectory (xrtRoot env)) ∧
    (HalError.noSuchDirectory (xrtRoot env)).message =
      "No such directory \x27" ++ xrtRoot env ++ "\x27" := by
  constructor
  · unfold loadDevices primaryStep directoryOrError
    simp [hemu, hdir, hne]
  · rfl

/-- Witness for claim C10 at a concrete environment with root `/x` set but
no directory present. -/
theorem spec_c10_witness :
    loadDevices wEnvC10 = .error (.noSuchDirectory "/x") :=
  (spec_c10 wEnvC10 rfl (by decide) rfl).1

/-- Counterexample to claim C1 as stated: with the install root unset, the
relative secondary candidate `lib/libxrt_aws.so` can still be a DLL, it is
attempted, and when its dlopen fails the call fails with the open error,
not with the root-not-configured error. -/
theorem spec_c1_counterexample :
    xrtRoot cEnvC1 = "" ∧
    isDLL cEnvC1 "lib/libxrt_aws.so" = true ∧
    loadDevices cEnvC1 = .error (.openFailed "lib/libxrt_aws.so" "") ∧
    HalError.openFailed "lib/libxrt_aws.so" "" ≠ .xrtNotSet := by decide

/-- Claim C1 as amended: with the install root unset or empty, loadDevices
never returns a device list; the root check runs at the end of the pass,
after the secondary candidate at the relative path `lib/libxrt_aws.so` has
been considered, and when that path is not a valid DLL the call fails with
the "XILINX_XRT must be set" error regardless of the emulation flag. -/
theorem spec_c1 (env : Env) (h : xrtRoot env = "") :
    (∀ d, loadDevices env ≠ .ok d) ∧
    (isDLL env "lib/libxrt_aws.so" = false → loadDevices env = .error .xrtNotSet) := by
  have hp : primaryStep env = .ok [] := by
    unfold primaryStep; simp [h]
  have hhw : ∀ d, hwEmStep env d = .ok d := fun d => by
    unfold hwEmStep; simp [h]
  have hsw : ∀ d, swEmStep env d = .ok d := fun d => by
    unfold swEmStep; simp [h]
  have hsec : secondaryStep env [] = tryCandidate env [] "lib/libxrt_aws.so" := by
    unfold secondaryStep; rw [h]; simp [pathJoin]
  have hmain : loadDevices env =
      (match tryCandidate env [] "lib/libxrt_aws.so" with
       | .error e => Except.error e
       | .ok _ => Except.error HalError.xrtNotSet) := by
    unfold loadDevices
    rw [hp]
    cases htc : tryCandidate env [] "lib/libxrt_aws.so" with
    | error e => simp [hsec, htc]
    | ok d2 => simp [hsec, htc, hhw, hsw, h]
  constructor
  · intro d
    rw [hmain]
    cases tryCandidate env [] "lib/libxrt_aws.so" <;> simp
  · intro hdll
    rw [hmain]
    unfold tryCandidate
    rw [hdll]
    simp

/-- Witness for the amended claim C1 in the empty world. -/
theorem spec_c1_witness :
    loadDevices env0 ≠ .ok [] ∧ loadDevices env0 = .error .xrtNotSet :=
  ⟨(spec_c1 env0 rfl).1 [], (spec_c1 env0 rfl).2 rfl⟩

/-- Counterexample to claim C3 as stated: a driver reporting version
`2^31` (nonzero count, version other than 1 or 2) fails with a message
naming the negative wrapped `int` value `-2^31`, not the reported
version, because of the unsigned-to-int narrowing at hal.cpp lines
122-124. -/
theorem spec_c3_counterexample :
    cEnvC3.version "d.so" = 2147483648 ∧
    (createHalDevices cEnvC3 [] "d.so" 0).result =
      .error (.unsupportedVersion (-2147483648)) ∧
    (HalError.unsupportedVersion (-2147483648)).message =
      "HAL version -2147483648 not supported" ∧
    "HAL version -2147483648 not supported" ≠
      "HAL version 2147483648 not supported" := by decide

/-- Claim C3 as amended: for a loaded library with a nonzero negotiated
count, a missing version symbol defaults the version to 1; version 1
always fails with the "Legacy HAL version 1 not supported" error; and
any version other than 1 or 2 fails with the "HAL version v not
supported" error naming the reported version as narrowed to a signed
32-bit int — equal to the reported version whenever it is below 2^31,
and two's-complement negative otherwise. -/
theorem spec_c3 (env : Env) (devices : List Device) (dll : String) (count : Nat)
    (hopen : env.openOk dll = true) (hprobe : env.hasProbe dll = true)
    (hcount : (if count ≠ 0 then count else env.probe dll) ≠ 0) :
    (env.hasVersion dll = false →
      (createHalDevices env devices dll count).result = .error (.legacyVersion 1) ∧
      (HalError.legacyVersion 1).message = "Legacy HAL version 1 not supported") ∧
    (env.hasVersion dll = true → toInt32 (env.version dll) = 1 →
      (createHalDevices env devices dll count).result = .error (.legacyVersion 1)) ∧
    (∀ v : Int, env.hasVersion dll = true → toInt32 (env.version dll) = v →
      v ≠ 1 → v ≠ 2 →
      (createHalDevices env devices dll count).result = .error (.unsupportedVersion v) ∧
      (HalError.unsupportedVersion v).message =
        "HAL version " ++ toString v ++ " not supported") ∧
    (∀ u : Nat, env.hasVersion dll = true → env.version dll = u →
      u < 2147483648 → u ≠ 1 → u ≠ 2 →
      (createHalDevices env devices dll count).result =
        .error (.unsupportedVersion (u : Int)) ∧
      (HalError.unsupportedVersion (u : Int)).message =
        "HAL version " ++ toString u ++ " not supported") := by
  have hcount' : ¬(if count = 0 then env.probe dll else count) = 0 := by
    simpa using hcount
  refine ⟨?_, ?_, ?_, ?_⟩
  · intro hv
    refine ⟨?_, rfl⟩
    unfold createHalDevices
    simp [hopen, hprobe, hcount', hv]
  · intro hv h1
    unfold createHalDevices
    simp [hopen, hprobe, hcount', hv, h1]
  · intro v hv hveq h1 h2
    refine ⟨?_, rfl⟩
    unfold createHalDevices
    simp [hopen, hprobe, hcount', hv, hveq, h1, h2]
  · intro u hv hu hlt h1 h2
    have hmod : u % 4294967296 = u := Nat.mod_eq_of_lt (by omega)
    have htoi : toInt32 (env.version dll) = (u : Int) := by
      rw [hu]
      unfold toInt32
      rw [hmod]
      simp [hlt]
    have h1i : ((u : Int)) ≠ 1 := by exact_mod_cast h1
    have h2i : ((u : Int)) ≠ 2 := by exact_mod_cast h2
    refine ⟨?_, rfl⟩
    unfold createHalDevices
    simp [hopen, hprobe, hcount', hv, htoi, h1i, h2i]

/-- Witness for the amended claim C3: a driver reporting the small
unsupported version 3 fails with the message naming 3 itself. -/
theorem spec_c3_witness :
    (createHalDevices wEnvC3 [] "d.so" 0).result =
      .error (.unsupportedVersion 3) ∧
    (HalError.unsupportedVersion 3).message = "HAL version 3 not supported" :=
  (spec_c3 wEnvC3 [] "d.so" 0 rfl rfl (by decide)).2.2.2 3 rfl rfl
    (by decide) (by decide) (by decide)

/-- Claim C4: the library handle is released exactly when negotiation
reaches ABI version 2 with a nonzero count, and in that case the result is
the devices the version-2 adapter appended for this dll and count; every
other negotiation path keeps `released` false, so the scoped handle is
closed. -/
theorem spec_c4 (env : Env) (devices : List Device) (dll : String) (count : Nat) :
    ((createHalDevices env devices dll count).released = true ↔
      (env.openOk dll = true ∧ env.hasProbe dll = true ∧
       (if count ≠ 0 then count else env.probe dll) ≠ 0 ∧
       (if env.hasVersion dll then toInt32 (env.version dll) else 1) = 2)) ∧
    ((createHalDevices env devices dll count).released = true →
      (createHalDevices env devices dll count).result =
        .ok (devices ++ env.hal2Devices dll
              (if count ≠ 0 then count else env.probe dll))) := by
  cases ho : env.openOk dll with
  | false => simp [createHalDevices, ho]
  | true =>
    cases hp : env.hasProbe dll with
    | false => simp [createHalDevices, ho, hp]
    | true =>
      by_cases hc : (if count = 0 then env.probe dll else count) = 0
      · simp [createHalDevices, ho, hp, hc]
      · cases hv : env.hasVersion dll with
        | false => simp [createHalDevices, ho, hp, hc, hv]
        | true =>
          by_cases h1 : toInt32 (env.version dll) = 1
          · simp [createHalDevices, ho, hp, hc, hv, h1]
          · by_cases h2 : toInt32 (env.version dll) = 2
            · simp [createHalDevices, ho, hp, hc, hv, h1, h2]
            · simp [createHalDevices, ho, hp, hc, hv, h1, h2]

/-- Witness for claim C4 with a version-2 dll whose adapter contributes
one device. -/
theorem spec_c4_witness :
    (createHalDevices abiEnv2 [] "d.so" 0).released = true ∧
    (createHalDevices abiEnv2 [] "d.so" 0).result = .ok [⟨"d.so", 2⟩] :=
  ⟨by decide, (spec_c4 abiEnv2 [] "d.so" 0).2 (by decide)⟩

/-- Claim C6: the negotiated count is the caller hint when nonzero and
otherwise the probe result, as witnessed by the count handed to the
version-2 adapter; and when both hint and probe are zero the outcome is
"no devices": the unchanged device list is returned, no handle release, no
error. -/
theorem spec_c6 (env : Env) (devices : List Device) (dll : String) (count : Nat)
    (hopen : env.openOk dll = true) (hprobe : env.hasProbe dll = true) :
    ((if count ≠ 0 then count else env.probe dll) ≠ 0 →
      (if env.hasVersion dll then toInt32 (env.version dll) else 1) = 2 →
      (createHalDevices env devices dll count).result =
        .ok (devices ++ env.hal2Devices dll
              (if count ≠ 0 then count else env.probe dll))) ∧
    (count = 0 → env.probe dll = 0 →
      createHalDevices env devices dll count =
        { result := .ok devices, released := false }) := by
  constructor
  · intro hc hv
    have hc' : ¬(if count = 0 then env.probe dll else count) = 0 := by
      simpa using hc
    cases hvb : env.hasVersion dll with
    | false =>
      rw [hvb] at hv
      simp at hv
    | true =>
      rw [hvb] at hv
      simp at hv
      unfold createHalDevices
      simp [hopen, hprobe, hc', hvb, hv]
  · intro hz hpz
    unfold createHalDevices
    simp [hopen, hprobe, hz, hpz]

/-- Witness for claim C6: a nonzero hint of 3 overrides the probe result of
2 and is the count handed to the adapter. -/
theorem spec_c6_witness :
    (createHalDevices abiEnv2 [] "d.so" 3).result = .ok [⟨"d.so", 3⟩] :=
  (spec_c6 abiEnv2 [] "d.so" 3 rfl rfl).1 (by decide) (by decide)

/-- Claim C7: an opened library without the mandatory probe symbol yields
the "not a HAL driver" outcome: unchanged device list, handle closed (not
released), no error; and a primary candidate in that state leaves the pass
with an empty list, so processing continues with the next candidates. -/
theorem spec_c7 (env : Env) (devices : List Device) (dll : String) (count : Nat)
    (hopen : env.openOk dll = true) (hprobe : env.hasProbe dll = false) :
    createHalDevices env devices dll count =
      { result := .ok devices, released := false } ∧
    (dll = pathJoin (xrtRoot env) "lib/libxrt_core.so" → xrtRoot env ≠ "" →
      env.emulationMode = false → env.is_directory (xrtRoot env) = true →
      primaryStep env = .ok []) := by
  have h1 : createHalDevices env devices dll count =
      { result := .ok devices, released := false } := by
    unfold createHalDevices
    simp [hopen, hprobe]
  refine ⟨h1, ?_⟩
  intro hdll hne hemu hdir
  have h2 : createHalDevices env [] dll =
      { result := .ok [], released := false } := by
    unfold createHalDevices
    simp [hopen, hprobe]
  unfold primaryStep tryCandidate directoryOrError
  simp only [hne, hemu, hdir]
  rw [← hdll]
  by_cases hd : isDLL env dll = true
  · simp [hne, hd, h2]
  · simp [hne, hd]

/-- Witness for claim C7 with a dll that opens but has no probe symbol. -/
theorem spec_c7_witness :
    createHalDevices abiEnvNoProbe [] "d.so" 0 =
      { result := .ok [], released := false } :=
  (spec_c7 abiEnvNoProbe [] "d.so" 0 rfl rfl).1

/-- Claim C5: the secondary candidate block passes a nonempty device list
through untouched, runs the aws candidate exactly when the list is empty,
and an emulation-suppressed primary block leaves the list empty. -/
theorem spec_c5 (env : Env) (d : List Device) :
    (d ≠ [] → secondaryStep env d = .ok d) ∧
    (secondaryStep env [] =
      tryCandidate env [] (pathJoin (xrtRoot env) "lib/libxrt_aws.so")) ∧
    (env.emulationMode = true → primaryStep env = .ok []) := by
  refine ⟨?_, ?_, ?_⟩
  · intro hd
    cases d with
    | nil => exact absurd rfl hd
    | cons a l =>
      unfold secondaryStep
      simp
  · unfold secondaryStep
    simp
  · intro hemu
    unfold primaryStep
    simp [hemu]

/-- Witness for claim C5: a nonempty accumulated list is passed through
unchanged. -/
theorem spec_c5_witness :
    secondaryStep env0 [⟨"a", 0⟩] = .ok [⟨"a", 0⟩] :=
  (spec_c5 env0 [⟨"a", 0⟩]).1 (by decide)

/-- Claim C2: an unsupported-version failure raised by any attempted
candidate block aborts the whole loadDevices call with exactly that error,
discarding every device accumulated by the earlier blocks. -/
theorem spec_c2 (env : Env) (d1 d2 d3 : List Device) (e : HalError)
    (he : e.isVersionError = true) :
    (primaryStep env = .error e → loadDevices env = .error e) ∧
    (primaryStep env = .ok d1 → secondaryStep env d1 = .error e →
      loadDevices env = .error e) ∧
    (primaryStep env = .ok d1 → secondaryStep env d1 = .ok d2 →
      hwEmStep env d2 = .error e → loadDevices env = .error e) ∧
    (primaryStep env = .ok d1 → secondaryStep env d1 = .ok d2 →
      hwEmStep env d2 = .ok d3 → swEmStep env d3 = .error e →
      loadDevices env = .error e) := by
  refine ⟨?_, ?_, ?_, ?_⟩
  · intro h1
    unfold loadDevices
    simp [h1]
  · intro h1 h2
    unfold loadDevices
    simp [h1, h2]
  · intro h1 h2 h3
    unfold loadDevices
    simp [h1, h2, h3]
  · intro h1 h2 h3 h4
    unfold loadDevices
    simp [h1, h2, h3, h4]

/-- Witness for claim C2: the secondary candidate contributed one device,
the hardware-emulation override reports version 1, and the whole call
fails with the legacy-version error, discarding that device. -/
theorem spec_c2_witness :
    loadDevices wEnvC2b = .error (.legacyVersion 1) :=
  (spec_c2 wEnvC2b [] [⟨"/x/lib/libxrt_aws.so", 0⟩] [] (.legacyVersion 1)
    rfl).2.2.1 (by decide) (by decide) (by decide)

/-- Counterexample to claim C8 as stated: emulation on, valid root, both
overrides "null", neither default emulation file present — yet the call
does not succeed, because the secondary aws candidate reports the retired
ABI version 1 and its failure aborts the pass. -/
theorem spec_c8_counterexample :
    cEnvC8.emulationMode = true ∧
    xrtRoot cEnvC8 = "/x" ∧
    cEnvC8.is_directory "/x" = true ∧
    cEnvC8.hw_em_driver = "null" ∧
    cEnvC8.sw_em_driver = "null" ∧
    isDLL cEnvC8 (pathJoin "/x" "lib/libxrt_hwemu.so") = false ∧
    isDLL cEnvC8 (pathJoin "/x" "lib/libxrt_swemu.so") = false ∧
    loadDevices cEnvC8 = .error (.legacyVersion 1) := by decide

/-- Claim C8 as amended: with emulation on and a valid root, a "null"
override makes the block use the fixed default path under the root when
that default is a DLL; and when both overrides are "null" and neither
default is a DLL the emulation blocks contribute nothing and the call
returns exactly the outcome of the primary/secondary stage (succeeding
whenever that stage itself does not fail). -/
theorem spec_c8 (env : Env) (hemu : env.emulationMode = true)
    (hne : xrtRoot env ≠ "") (hdir : env.is_directory (xrtRoot env) = true) :
    (∀ d, env.hw_em_driver = "null" →
      isDLL env (pathJoin (xrtRoot env) "lib/libxrt_hwemu.so") = true →
      hwEmStep env d =
        (createHalDevices env d
          (pathJoin (xrtRoot env) "lib/libxrt_hwemu.so")).result) ∧
    (∀ d, env.sw_em_driver = "null" →
      isDLL env (pathJoin (xrtRoot env) "lib/libxrt_swemu.so") = true →
      swEmStep env d =
        (createHalDevices env d
          (pathJoin (xrtRoot env) "lib/libxrt_swemu.so")).result) ∧
    (env.hw_em_driver = "null" → env.sw_em_driver = "null" →
      isDLL env (pathJoin (xrtRoot env) "lib/libxrt_hwemu.so") = false →
      isDLL env (pathJoin (xrtRoot env) "lib/libxrt_swemu.so") = false →
      (∀ d, hwEmStep env d = .ok d) ∧ (∀ d, swEmStep env d = .ok d) ∧
      loadDevices env = secondaryStep env []) := by
  have hext : (extensionOf "null" == dllExt) = false := by decide
  have hnullDLL : ∀ e : Env, isDLL e "null" = false := fun e => by
    unfold isDLL
    rw [hext]
    simp
  refine ⟨?_, ?_, ?_⟩
  · intro d hnull hdll
    unfold hwEmStep tryCandidate directoryOrError
    simp [hemu, hne, hdir, hnull, hdll]
  · intro d hnull hdll
    unfold swEmStep tryCandidate directoryOrError
    simp [hemu, hne, hdir, hnull, hdll]
  · intro hw0 hsw0 hhw hsw
    have hhwStep : ∀ d, hwEmStep env d = .ok d := fun d => by
      unfold hwEmStep tryCandidate directoryOrError
      simp [hemu, hne, hdir, hw0, hhw, hnullDLL]
    have hswStep : ∀ d, swEmStep env d = .ok d := fun d => by
      unfold swEmStep tryCandidate directoryOrError
      simp [hemu, hne, hdir, hsw0, hsw, hnullDLL]
    have hp : primaryStep env = .ok [] := by
      unfold primaryStep
      simp [hemu]
    refine ⟨hhwStep, hswStep, ?_⟩
    cases hs : secondaryStep env [] with
    | error e =>
      unfold loadDevices
      simp [hp, hs]
    | ok d2 =>
      unfold loadDevices
      simp [hp, hs, hhwStep, hswStep, hne]

/-- Witness for the amended claim C8: with an empty `{root}/lib` the whole
call reduces to the secondary stage and succeeds with no devices. -/
theorem spec_c8_witness :
    loadDevices aEnvC8 = secondaryStep aEnvC8 [] ∧
    secondaryStep aEnvC8 [] = .ok [] :=
  ⟨((spec_c8 aEnvC8 rfl (by decide) rfl).2.2 rfl rfl (by decide)
      (by decide)).2.2, by decide⟩

/-- Counterexample to claim C9 as stated: a first load_xdp call that fails
(root unset) leaves the function-local static uninitialized, and a later
call does re-attempt the initialization — and can even succeed once the
environment provides the library. -/
theorem spec_c9_counterexample :
    (load_xdp false env0).result = .error (.xdpNotFoundUnset "liboclxdp.so") ∧
    (load_xdp false env0).attempted = true ∧
    (load_xdp false env0).initializedAfter = false ∧
    (load_xdp (load_xdp false env0).initializedAfter xdpGoodEnv).attempted = true ∧
    (load_xdp (load_xdp false env0).initializedAfter xdpGoodEnv).result = .ok () := by
  decide

/-- Claim C9 as amended: load_xdp initializes at most once after a success
(later calls run nothing and return ok), and every call that finds the
static uninitialized runs the attempt; after a failing attempt the static
stays uninitialized, so a later call re-attempts the load rather than
treating the failed attempt as consumed. -/
theorem spec_c9 (env env2 : Env) (e : HalError) :
    ((load_xdp true env).attempted = false ∧ (load_xdp true env).result = .ok () ∧
      (load_xdp true env).initializedAfter = true) ∧
    ((load_xdp false env).attempted = true) ∧
    ((load_xdp false env).result = .error e →
      (load_xdp false env).initializedAfter = false ∧
      (load_xdp (load_xdp false env).initializedAfter env2).attempted = true) := by
  refine ⟨⟨rfl, rfl, rfl⟩, ?_, ?_⟩
  · unfold load_xdp
    cases load_xdp_attempt env <;> simp
  · intro he
    cases h : load_xdp_attempt env with
    | ok u =>
      exfalso
      unfold load_xdp at he
      rw [h] at he
      simp at he
    | error e2 =>
      have hinit : (load_xdp false env).initializedAfter = false := by
        simp [load_xdp, h]
      refine ⟨hinit, ?_⟩
      rw [hinit]
      unfold load_xdp
      cases load_xdp_attempt env2 <;> simp

/-- Witness for the amended claim C9: an initialized static skips the
attempt; a failed attempt in the empty world leaves it uninitialized and
the next call attempts again. -/
theorem spec_c9_witness :
    (load_xdp true env0).attempted = false ∧
    (load_xdp false env0).initializedAfter = false ∧
    (load_xdp (load_xdp false env0).initializedAfter xdpGoodEnv).attempted = true :=
  ⟨(spec_c9 env0 xdpGoodEnv (.xdpNotFoundUnset "liboclxdp.so")).1.1,
   ((spec_c9 env0 xdpGoodEnv (.xdpNotFoundUnset "liboclxdp.so")).2.2 (by decide)).1,
   ((spec_c9 env0 xdpGoodEnv (.xdpNotFoundUnset "liboclxdp.so")).2.2 (by decide)).2⟩
